import Mathlib

/-!
Shallow embedding of the wine-tasting application (`src/wine_tasting2.py`):
the record data model, the submission path of tab 1, the read/aggregate
pipeline of tab 2 (rating histogram, taste frequency table, means), the
header bootstrap, and the summary wrapper around the generative-text call.
-/

namespace WineApp

/-- Expected header row of the sheet (line 39 of the source). -/
def expected_headers : List String := ["Name", "Wine", "Rating", "Category", "Taste"]

/-- One row as it sits in the sheet before numeric coercion: every cell a string,
as returned by `sheet.get_all_records()`. -/
structure RawRecord where
  name : String
  wine : String
  rating : String
  category : String
  taste : String
deriving Repr, DecidableEq

/-- One row after `pd.to_numeric(df["Rating"], errors="coerce")` (line 135):
the rating is a present integer or absent (NaN modelled as `none`). -/
structure Record where
  name : String
  wine : String
  rating : Option Int
  category : String
  taste : String
deriving Repr, DecidableEq

/-- Value of a non-empty run of decimal digits, `none` on any non-digit. -/
def digitsVal (cs : List Char) (acc : Nat) : Option Nat :=
  match cs with
  | [] => some acc
  | c :: rest => if c.isDigit then digitsVal rest (acc * 10 + (c.toNat - 48)) else none

/-- Parse a non-empty all-digit character list as a natural number. -/
def parseDigits (cs : List Char) : Option Nat :=
  match cs with
  | [] => none
  | _ => digitsVal cs 0

/-- Model of `pd.to_numeric(_, errors="coerce")` on one cell: a cell that parses
as an (optionally negated) integer becomes that integer, anything else (empty or
malformed) becomes absent. Ratings written by the app are slider integers 1-10. -/
def to_numeric (s : String) : Option Int :=
  match s.data with
  | '-' :: rest => (parseDigits rest).map (fun n => -(n : Int))
  | cs => (parseDigits cs).map (fun n => (n : Int))

/-- Model of Python `str.strip()`: drop leading and trailing whitespace. -/
def strip (s : String) : String :=
  String.mk (((s.data.dropWhile Char.isWhitespace).reverse.dropWhile Char.isWhitespace).reverse)

/-- Coercion of one fetched row to the typed record shape (line 135). -/
def coerceRecord (r : RawRecord) : Record :=
  { name := r.name, wine := r.wine, rating := to_numeric r.rating,
    category := r.category, taste := r.taste }

/-- Coercion of the whole fetched frame: the `Rating` column is coerced in place,
no row is dropped. -/
def coerceAll (rs : List RawRecord) : List Record := rs.map coerceRecord

/-- Wine filter of lines 155-156 and 273-274: `none` models "All Wines". -/
def filterWine (w : Option String) (rs : List Record) : List Record :=
  match w with
  | none => rs
  | some wine => rs.filter (fun r => r.wine == wine)

/-- `rating_df` (lines 154-156): rows with Category = "Rating", then the wine filter. -/
def rating_df (rs : List Record) (w : Option String) : List Record :=
  filterWine w (rs.filter (fun r => r.category == "Rating"))

/-- `taste_df` (lines 272-274): rows with Category = "Taste", then the wine filter. -/
def taste_df (rs : List Record) (w : Option String) : List Record :=
  filterWine w (rs.filter (fun r => r.category == "Taste"))

/-- Number of rows of `rs` whose rating is present and equal to `v`
(one bin of `value_counts` on the Rating column, which skips NaN). -/
def countRating (rs : List Record) (v : Int) : Nat :=
  (rs.filter (fun r => r.rating == some v)).length

/-- `rating_counts` (lines 162-163): `value_counts` reindexed on `range(1, 11)`
with `fill_value=0` — bins 1..10 in order, zero-filled, values outside 1..10
dropped by the reindex. -/
def rating_counts (rs : List Record) : List (Int × Nat) :=
  (List.range 10).map (fun (i : Nat) => ((i : Int) + 1, countRating rs ((i : Int) + 1)))

/-- Whether a record carries a present rating that falls in the histogram bins 1..10. -/
def inBins (r : Record) : Bool :=
  match r.rating with
  | some v => decide (1 ≤ v ∧ v ≤ 10)
  | none => false

/-- Descending-count order on taste-frequency entries. -/
def countGE (p q : String × Nat) : Prop := q.2 ≤ p.2

instance : DecidableRel countGE := fun p q => Nat.decLe q.2 p.2

instance : IsTotal (String × Nat) countGE :=
  ⟨fun a b => (Nat.le_total a.2 b.2).symm⟩

instance : IsTrans (String × Nat) countGE :=
  ⟨fun _ _ _ h1 h2 => Nat.le_trans h2 h1⟩

/-- Model of `Series.value_counts()` (line 279): each distinct value with its
multiplicity, sorted by descending count. -/
def value_counts (l : List String) : List (String × Nat) :=
  List.insertionSort countGE (l.dedup.map (fun t => (t, l.count t)))

/-- `taste_counts` (line 279): `value_counts` of the Taste column. -/
def taste_counts (rs : List Record) : List (String × Nat) :=
  value_counts (rs.map (fun r => r.taste))

/-- Model of `Series.mean()` on the Rating column: NaN entries are skipped
(`skipna`), and the mean of a series with no present value is NaN (`none`). -/
def seriesMean (l : List (Option Int)) : Option Rat :=
  let present := l.filterMap id
  if present = [] then none
  else some ((present.map (fun v => (v : Rat))).sum / present.length)

/-- Outcome of the ratings section (lines 158-163): an empty filtered frame
shows the "No ratings for the selected wine." message instead of any chart
or mean. -/
inductive RatingView where
  | noData
  | chart (counts : List (Int × Nat))
deriving Repr, DecidableEq

/-- The branch at lines 158-163. -/
def ratingSection (rs : List Record) (w : Option String) : RatingView :=
  if rating_df rs w = [] then RatingView.noData
  else RatingView.chart (rating_counts (rating_df rs w))

/-- `np.mean(wine_ratings)` at line 220: mean of the present ratings of an
(assumed non-empty after dropna) filtered frame. -/
def overall_mean (rdf : List Record) : Rat :=
  let wine_ratings := rdf.filterMap (fun r => r.rating)
  (wine_ratings.map (fun v => (v : Rat))).sum / wine_ratings.length

/-- `user_mean` of lines 222-223: the user's rows of the wine-filtered rating
frame; if that selection has no rows at all the overall mean is used, otherwise
the (NaN-skipping) mean of the user's ratings — NaN (`none`) when the user's
rows exist but none has a present rating. -/
def funny_user_mean (rdf : List Record) (user : String) : Option Rat :=
  let user_ratings := (rdf.filter (fun r => r.name == user)).map (fun r => r.rating)
  if (rdf.filter (fun r => r.name == user)) = [] then some (overall_mean rdf)
  else seriesMean user_ratings

/-- Split a character list at newline characters, keeping empty segments. -/
def splitCharList (cs : List Char) : List (List Char) :=
  match cs with
  | [] => [[]]
  | c :: rest =>
    match splitCharList rest with
    | [] => [[]]
    | l :: ls => if c = '\n' then [] :: l :: ls else (c :: l) :: ls

/-- Python `str.splitlines` on the tasting-notes text area (line 110), modelled
as splitting at newline characters (blank segments are filtered by the caller,
just as blank lines are at line 111). -/
def splitLines (s : String) : List String := (splitCharList s.data).map String.mk

/-- Taste rows appended at lines 109-112: one row per non-blank line of the
notes, rating cell empty (absent), taste text stripped. -/
def tasteRows (n wine notes : String) : List Record :=
  if strip notes = "" then []
  else ((splitLines notes).filter (fun t => strip t != "")).map
    (fun t => { name := n, wine := wine, rating := none, category := "Taste", taste := strip t })

/-- All rows appended by one accepted submission (lines 101-112): the rating
row of line 106 followed by the taste rows; nothing when the stripped name is
empty. -/
def submittedRows (name wine : String) (rating : Int) (notes : String) : List Record :=
  if strip name = "" then []
  else { name := strip name, wine := wine, rating := some rating,
         category := "Rating", taste := "" } :: tasteRows (strip name) wine notes

/-- The submit handler (lines 101-112) acting on the store: on a blank name a
warning is shown (`true`) and nothing is appended; otherwise the rows are
appended and no warning is shown. -/
def submit (store : List Record) (name wine : String) (rating : Int) (notes : String) :
    List Record × Bool :=
  if strip name = "" then (store, true)
  else (store ++ submittedRows name wine rating notes, false)

/-- `sheet.row_values(1)` (line 38): the first row, `[]` when the sheet is empty. -/
def row_values_first (rows : List (List String)) : List String := rows.headD []

/-- Header bootstrap (lines 38-41): insert the expected header as new first row
when the current first row differs from it. -/
def ensureHeaders (rows : List (List String)) : List (List String) :=
  if row_values_first rows ≠ expected_headers then expected_headers :: rows else rows

/-- `generate_summary` (lines 47-56), parametrised by the behaviour of the
external generative call: an exception (with its message) is turned into the
fallback string, non-empty text is stripped and returned, empty text yields the
fixed message. -/
def generate_summary (call : String → Except String String) (prompt : String) : String :=
  match call prompt with
  | Except.ok text => if text = "" then "No response generated." else strip text
  | Except.error e => "Could not generate a summary due to an error: " ++ e

/-- Frame of records used around C10: user "B" has a Rating-category row
for wine "W" whose rating cell is absent. -/
def records_c10 : List Record :=
  [{ name := "A", wine := "W", rating := some 8, category := "Rating", taste := "" },
   { name := "B", wine := "W", rating := none, category := "Rating", taste := "" }]

/-! Helper lemmas about the embedded operations. -/

lemma rating_df_append (rs rs' : List Record) (w : Option String) :
    rating_df (rs ++ rs') w = rating_df rs w ++ rating_df rs' w := by
  cases w <;> simp [rating_df, filterWine, List.filter_append]

lemma taste_df_append (rs rs' : List Record) (w : Option String) :
    taste_df (rs ++ rs') w = taste_df rs w ++ taste_df rs' w := by
  cases w <;> simp [taste_df, filterWine, List.filter_append]

lemma rating_df_single (r : Record) (w : Option String) :
    rating_df [r] w = [] ∨ rating_df [r] w = [r] := by
  cases w with
  | none =>
    by_cases hc : r.category == "Rating"
    · right; simp [rating_df, filterWine, List.filter_cons, hc]
    · left; simp [rating_df, filterWine, List.filter_cons, hc]
  | some wine =>
    by_cases hc : r.category == "Rating"
    · by_cases hw : r.wine == wine
      · right; simp [rating_df, filterWine, List.filter_cons, hc, hw]
      · left; simp [rating_df, filterWine, List.filter_cons, hc, hw]
    · left; simp [rating_df, filterWine, List.filter_cons, hc]

lemma countRating_append_none (l : List Record) (r : Record) (hr : r.rating = none)
    (v : Int) : countRating (l ++ [r]) v = countRating l v := by
  simp [countRating, List.filter_append, List.filter_cons, hr]

lemma rating_counts_append_none (l : List Record) (r : Record) (hr : r.rating = none) :
    rating_counts (l ++ [r]) = rating_counts l := by
  unfold rating_counts
  exact List.map_congr_left (fun i _ => by rw [countRating_append_none l r hr])

lemma seriesMean_append_none (l : List (Option Int)) :
    seriesMean (l ++ [none]) = seriesMean l := by
  simp [seriesMean, List.filterMap_append]

lemma list_sum_map_add {α : Type} (l : List α) (f g : α → Nat) :
    (l.map (fun x => f x + g x)).sum = (l.map f).sum + (l.map g).sum := by
  induction l with
  | nil => simp
  | cons a l ih => simp [ih]; omega

lemma indicator_sum (n : Nat) (v : Int) :
    ((List.range n).map (fun (i : Nat) => if v = (i : Int) + 1 then 1 else 0)).sum
      = if 1 ≤ v ∧ v ≤ (n : Int) then 1 else 0 := by
  induction n with
  | zero =>
    rw [if_neg (by omega)]
    simp
  | succ n ih =>
    rw [List.range_succ, List.map_append, List.sum_append, ih]
    simp only [List.map_cons, List.map_nil, List.sum_cons, List.sum_nil, Nat.add_zero]
    by_cases h1 : v = (n : Int) + 1
    · rw [if_pos h1, if_neg (by omega), if_pos (by constructor <;> omega)]
    · rw [if_neg h1]
      by_cases h2 : 1 ≤ v ∧ v ≤ (n : Int)
      · rw [if_pos h2, if_pos (by constructor <;> omega)]
      · rw [if_neg h2, if_neg (by omega)]

lemma indicator_record (r : Record) :
    ((List.range 10).map (fun (i : Nat) => if r.rating == some ((i : Int) + 1) then 1 else 0)).sum
      = if inBins r then 1 else 0 := by
  cases hrat : r.rating with
  | none => simp [hrat, inBins]
  | some v =>
    calc ((List.range 10).map
            (fun (i : Nat) => if some v == some ((i : Int) + 1) then 1 else 0)).sum
        = ((List.range 10).map (fun (i : Nat) => if v = (i : Int) + 1 then 1 else 0)).sum := by
          refine congrArg List.sum (List.map_congr_left ?_)
          intro i _
          by_cases h : v = (i : Int) + 1 <;> simp [h]
      _ = if 1 ≤ v ∧ v ≤ (10 : Int) then 1 else 0 := indicator_sum 10 v
      _ = if inBins r then 1 else 0 := by
          simp only [inBins, hrat]
          by_cases h : 1 ≤ v ∧ v ≤ (10 : Int) <;> simp [h]

lemma countRating_cons (r : Record) (rs : List Record) (v : Int) :
    countRating (r :: rs) v
      = (if r.rating == some v then 1 else 0) + countRating rs v := by
  simp only [countRating, List.filter_cons]
  split
  · simp [Nat.add_comm]
  · simp

lemma rating_counts_snd (rs : List Record) :
    (rating_counts rs).map Prod.snd
      = (List.range 10).map (fun (i : Nat) => countRating rs ((i : Int) + 1)) := by
  simp [rating_counts, List.map_map, Function.comp]

lemma histogram_sum (rs : List Record) :
    ((rating_counts rs).map Prod.snd).sum = (rs.filter inBins).length := by
  rw [rating_counts_snd]
  induction rs with
  | nil => simp [countRating]
  | cons r rs ih =>
    calc ((List.range 10).map (fun (i : Nat) => countRating (r :: rs) ((i : Int) + 1))).sum
        = ((List.range 10).map (fun (i : Nat) =>
            (if r.rating == some ((i : Int) + 1) then 1 else 0)
              + countRating rs ((i : Int) + 1))).sum := by
          exact congrArg List.sum (List.map_congr_left (fun i _ => countRating_cons r rs _))
      _ = ((List.range 10).map (fun (i : Nat) =>
            if r.rating == some ((i : Int) + 1) then 1 else 0)).sum
            + ((List.range 10).map (fun (i : Nat) => countRating rs ((i : Int) + 1))).sum :=
          list_sum_map_add _ _ _
      _ = (if inBins r then 1 else 0) + (rs.filter inBins).length := by
          rw [indicator_record, ih]
      _ = ((r :: rs).filter inBins).length := by
          rw [List.filter_cons]
          split
          · simp [Nat.add_comm]
          · simp

/-! Theorems settling the claims. -/

/-- C3: `generate_summary` never propagates a failure of the generative call.
When the call raises, the returned string contains the exception's message
text; when it succeeds with non-empty text the stripped text is returned;
when it succeeds with empty text the fixed fallback string is returned. -/
theorem C3_generate_summary (call : String → Except String String) (prompt : String) :
    (∀ e, call prompt = Except.error e →
      ∃ a b, generate_summary call prompt = a ++ e ++ b) ∧
    (∀ t, call prompt = Except.ok t → t ≠ "" →
      generate_summary call prompt = strip t) ∧
    (call prompt = Except.ok "" →
      generate_summary call prompt = "No response generated.") := by
  refine ⟨?_, ?_, ?_⟩
  · intro e he
    refine ⟨"Could not generate a summary due to an error: ", "", ?_⟩
    simp [generate_summary, he]
  · intro t ht hne
    simp [generate_summary, ht, hne]
  · intro h
    simp [generate_summary, h]

/-- Witness for C3 at concrete service behaviours. -/
theorem C3_generate_summary_witness :
    (∃ a b, generate_summary (fun _ => Except.error "boom") "p" = a ++ "boom" ++ b) ∧
    generate_summary (fun _ => Except.ok " hi ") "p" = strip " hi " ∧
    generate_summary (fun _ => Except.ok "") "p" = "No response generated." :=
  ⟨(C3_generate_summary (fun _ => Except.error "boom") "p").1 "boom" rfl,
   (C3_generate_summary (fun _ => Except.ok " hi ") "p").2.1 " hi " rfl (by decide),
   (C3_generate_summary (fun _ => Except.ok "") "p").2.2 rfl⟩

/-- C4: every row appended by the submission path is either a Rating record
(rating populated, taste empty) or a Taste record (taste populated, rating
empty), never both. -/
theorem C4_submitted_record_shape (name wine : String) (rating : Int) (notes : String)
    (r : Record) (hr : r ∈ submittedRows name wine rating notes) :
    (r.rating.isSome = true ∧ r.taste = "") ∨ (r.rating = none ∧ r.taste ≠ "") := by
  unfold submittedRows at hr
  by_cases hn : strip name = ""
  · simp [hn] at hr
  · rw [if_neg hn] at hr
    rcases List.mem_cons.mp hr with rfl | hr
    · exact Or.inl ⟨rfl, rfl⟩
    · unfold tasteRows at hr
      by_cases hts : strip notes = ""
      · simp [hts] at hr
      · rw [if_neg hts] at hr
        rcases List.mem_map.mp hr with ⟨t, ht, rfl⟩
        have h2 := (List.mem_filter.mp ht).2
        refine Or.inr ⟨rfl, ?_⟩
        simpa [bne_iff_ne] using h2

/-- Witness for C4: the taste row appended for the note line "x". -/
theorem C4_submitted_record_shape_witness :
    ((⟨"A", "W", none, "Taste", "x"⟩ : Record).rating.isSome = true ∧
      (⟨"A", "W", none, "Taste", "x"⟩ : Record).taste = "") ∨
    ((⟨"A", "W", none, "Taste", "x"⟩ : Record).rating = none ∧
      (⟨"A", "W", none, "Taste", "x"⟩ : Record).taste ≠ "") :=
  C4_submitted_record_shape "A" "W" 5 " x " _ (by decide)

/-- C5: a filtered rating frame in which no record carries a present rating has
an absent mean (`none`, modelling NaN): never zero, never an arithmetic error;
and an empty filtered frame yields the "no data" branch instead of any mean. -/
theorem C5_mean_no_value (rs : List Record) (w : Option String)
    (h : ∀ r ∈ rating_df rs w, r.rating = none) :
    seriesMean ((rating_df rs w).map (fun r => r.rating)) = none ∧
    seriesMean ((rating_df rs w).map (fun r => r.rating)) ≠ some 0 ∧
    (rating_df rs w = [] → ratingSection rs w = RatingView.noData) := by
  have hnil : ((rating_df rs w).map (fun r => r.rating)).filterMap id = [] := by
    rw [List.filterMap_eq_nil_iff]
    intro a ha
    rcases List.mem_map.mp ha with ⟨r, hrr, rfl⟩
    exact h r hrr
  refine ⟨by simp [seriesMean, hnil], ?_, ?_⟩
  · intro hq
    rw [seriesMean, hnil] at hq
    simp at hq
  · intro he
    simp [ratingSection, he]

/-- Witness for C5 on a frame holding one absent-rating record and on the empty
frame. -/
theorem C5_mean_no_value_witness :
    seriesMean ((rating_df [(⟨"A", "W", none, "Rating", ""⟩ : Record)] none).map
      (fun r => r.rating)) = none ∧
    seriesMean ((rating_df [(⟨"A", "W", none, "Rating", ""⟩ : Record)] none).map
      (fun r => r.rating)) ≠ some 0 ∧
    (rating_df [(⟨"A", "W", none, "Rating", ""⟩ : Record)] none = [] →
      ratingSection [(⟨"A", "W", none, "Rating", ""⟩ : Record)] none = RatingView.noData) :=
  C5_mean_no_value _ none (by decide)

/-- C6: the fetch coercion never drops a row (the coerced frame has the same
length), a malformed rating cell becomes absent, and an absent-rating record
contributes to no histogram bin and to no mean. -/
theorem C6_coercion_absent (raws : List RawRecord) (raw : RawRecord) (hmem : raw ∈ raws)
    (hmal : to_numeric raw.rating = none) (r : Record) (hr : r.rating = none)
    (rs : List Record) (w : Option String) :
    (coerceAll raws).length = raws.length ∧
    (coerceRecord raw).rating = none ∧
    rating_counts (rating_df (rs ++ [r]) w) = rating_counts (rating_df rs w) ∧
    seriesMean ((rating_df (rs ++ [r]) w).map (fun x => x.rating)) =
      seriesMean ((rating_df rs w).map (fun x => x.rating)) := by
  refine ⟨by simp [coerceAll], by simp [coerceRecord, hmal], ?_, ?_⟩
  · rw [rating_df_append]
    rcases rating_df_single r w with h | h <;> rw [h]
    · simp
    · exact rating_counts_append_none _ _ hr
  · rw [rating_df_append]
    rcases rating_df_single r w with h | h <;> rw [h]
    · simp
    · rw [List.map_append]
      simpa [hr] using seriesMean_append_none ((rating_df rs w).map (fun x => x.rating))

/-- Witness for C6 at a malformed rating cell "abc". -/
theorem C6_coercion_absent_witness :
    (coerceAll [(⟨"A", "W", "abc", "Rating", ""⟩ : RawRecord)]).length = 1 ∧
    (coerceRecord (⟨"A", "W", "abc", "Rating", ""⟩ : RawRecord)).rating = none ∧
    rating_counts (rating_df ([(⟨"B", "W", some 3, "Rating", ""⟩ : Record)] ++
      [(⟨"A", "W", none, "Rating", ""⟩ : Record)]) none) =
      rating_counts (rating_df [(⟨"B", "W", some 3, "Rating", ""⟩ : Record)] none) ∧
    seriesMean ((rating_df ([(⟨"B", "W", some 3, "Rating", ""⟩ : Record)] ++
      [(⟨"A", "W", none, "Rating", ""⟩ : Record)]) none).map (fun x => x.rating)) =
      seriesMean ((rating_df [(⟨"B", "W", some 3, "Rating", ""⟩ : Record)] none).map
        (fun x => x.rating)) :=
  C6_coercion_absent _ _ (by decide) (by decide) _ (by decide) _ none

/-- C7: a submission whose name strips to the empty string is rejected before
the store — nothing appended, store unchanged, warning shown; any submission
with a non-empty stripped name appends its rows with no further validation. -/
theorem C7_name_validation (store : List Record) (name wine : String) (rating : Int)
    (notes : String) :
    (strip name = "" → submit store name wine rating notes = (store, true)) ∧
    (strip name ≠ "" →
      submit store name wine rating notes =
        (store ++ ({ name := strip name, wine := wine, rating := some rating,
                     category := "Rating", taste := "" } ::
                   tasteRows (strip name) wine notes),
         false)) := by
  constructor
  · intro h; simp [submit, h]
  · intro h; simp [submit, submittedRows, h]

/-- Witness for C7: a whitespace-only name is rejected, a stripped non-empty
name is appended. -/
theorem C7_name_validation_witness :
    submit [] "   " "W" 5 "x" = ([], true) ∧
    submit [] " A " "W" 5 "" =
      ([] ++ ({ name := strip " A ", wine := "W", rating := some 5,
                category := "Rating", taste := "" } ::
              tasteRows (strip " A ") "W" ""),
       false) :=
  ⟨(C7_name_validation [] "   " "W" 5 "x").1 (by decide),
   (C7_name_validation [] " A " "W" 5 "").2 (by decide)⟩

/-- C8: a record whose Category is neither "Rating" nor "Taste" is excluded
from both views: it leaves the filtered frames, the histogram, and the taste
frequency table unchanged. -/
theorem C8_unknown_category (r : Record) (rs : List Record) (w : Option String)
    (h1 : r.category ≠ "Rating") (h2 : r.category ≠ "Taste") :
    rating_df (rs ++ [r]) w = rating_df rs w ∧
    taste_df (rs ++ [r]) w = taste_df rs w ∧
    rating_counts (rating_df (rs ++ [r]) w) = rating_counts (rating_df rs w) ∧
    taste_counts (taste_df (rs ++ [r]) w) = taste_counts (taste_df rs w) := by
  have hr : rating_df (rs ++ [r]) w = rating_df rs w := by
    rw [rating_df_append]
    have : rating_df [r] w = [] := by
      cases w <;> simp [rating_df, filterWine, List.filter_cons, beq_iff_eq, h1]
    rw [this, List.append_nil]
  have ht : taste_df (rs ++ [r]) w = taste_df rs w := by
    rw [taste_df_append]
    have : taste_df [r] w = [] := by
      cases w <;> simp [taste_df, filterWine, List.filter_cons, beq_iff_eq, h2]
    rw [this, List.append_nil]
  exact ⟨hr, ht, by rw [hr], by rw [ht]⟩

/-- Witness for C8 at a record of category "Mystery". -/
theorem C8_unknown_category_witness :
    rating_df ([] ++ [(⟨"A", "W", some 5, "Mystery", "x"⟩ : Record)]) none =
      rating_df [] none ∧
    taste_df ([] ++ [(⟨"A", "W", some 5, "Mystery", "x"⟩ : Record)]) none =
      taste_df [] none ∧
    rating_counts (rating_df ([] ++ [(⟨"A", "W", some 5, "Mystery", "x"⟩ : Record)]) none) =
      rating_counts (rating_df [] none) ∧
    taste_counts (taste_df ([] ++ [(⟨"A", "W", some 5, "Mystery", "x"⟩ : Record)]) none) =
      taste_counts (taste_df [] none) :=
  C8_unknown_category _ [] none (by decide) (by decide)

/-- C9: at initialization the expected header row is inserted as a new first
row exactly when the current first row differs from it; a matching first row
causes no write; in both cases every pre-existing row survives unchanged (the
old sheet is a suffix of the new one). -/
theorem C9_header_bootstrap (rows : List (List String)) :
    (row_values_first rows = expected_headers → ensureHeaders rows = rows) ∧
    (row_values_first rows ≠ expected_headers →
      ensureHeaders rows = expected_headers :: rows) ∧
    rows.IsSuffix (ensureHeaders rows) := by
  refine ⟨fun h => by simp [ensureHeaders, h], fun h => by simp [ensureHeaders, h], ?_⟩
  by_cases h : row_values_first rows = expected_headers
  · exact ⟨[], by simp [ensureHeaders, h]⟩
  · exact ⟨[expected_headers], by simp [ensureHeaders, h]⟩

/-- Witness for C9: an empty sheet gains the header, a well-headed sheet is
left untouched. -/
theorem C9_header_bootstrap_witness :
    ensureHeaders [] = expected_headers :: [] ∧
    ensureHeaders [expected_headers, ["x"]] = [expected_headers, ["x"]] :=
  ⟨(C9_header_bootstrap []).2.1 (by decide),
   (C9_header_bootstrap [expected_headers, ["x"]]).1 (by decide)⟩

/-- Counterexample to C10 as stated: user "B" has no present rating for wine
"W" (their only row has an absent rating), the wine has present ratings, yet
`user_mean` is NaN (`none`), not the overall mean — the substitution only
happens when the user's row selection is empty. -/
theorem C10_substitution_counterexample :
    (rating_df records_c10 (some "W")).filter (fun r => r.name == "B") ≠ [] ∧
    ((rating_df records_c10 (some "W")).filter
      (fun r => r.name == "B")).filterMap (fun r => r.rating) = [] ∧
    (rating_df records_c10 (some "W")).filterMap (fun r => r.rating) ≠ [] ∧
    funny_user_mean (rating_df records_c10 (some "W")) "B" = none ∧
    some (overall_mean (rating_df records_c10 (some "W"))) ≠ (none : Option Rat) := by
  decide

/-- C10 (amended): when a wine is selected that has present ratings and a user
is selected who has no Rating-category row at all for that wine, the user's
average is silently substituted with the overall average of the wine's present
ratings. -/
theorem C10_substitution (rs : List Record) (wine user : String)
    (hw : (rating_df rs (some wine)).filterMap (fun r => r.rating) ≠ [])
    (hu : (rating_df rs (some wine)).filter (fun r => r.name == user) = []) :
    funny_user_mean (rating_df rs (some wine)) user
      = some (overall_mean (rating_df rs (some wine))) := by
  simp [funny_user_mean, hu]

/-- Witness for C10 at a user with no rows for the wine. -/
theorem C10_substitution_witness :
    funny_user_mean (rating_df records_c10 (some "W")) "C"
      = some (overall_mean (rating_df records_c10 (some "W"))) :=
  C10_substitution records_c10 "W" "C" (by decide) (by decide)

/-- Counterexample to C1 as stated: one Rating record for wine "W" whose
present numeric rating is 11 — the filtered frame is non-empty, yet the
histogram counts sum to 0 while one filtered record carries a present numeric
rating (values outside 1..10 are dropped by the reindex). -/
theorem C1_histogram_sum_counterexample :
    rating_df [(⟨"A", "W", some 11, "Rating", ""⟩ : Record)] (some "W") ≠ [] ∧
    ((rating_counts (rating_df [(⟨"A", "W", some 11, "Rating", ""⟩ : Record)]
      (some "W"))).map Prod.snd).sum = 0 ∧
    ((rating_df [(⟨"A", "W", some 11, "Rating", ""⟩ : Record)] (some "W")).filter
      (fun r => r.rating.isSome)).length = 1 := by
  decide

/-- C1 (amended): for a non-empty filtered rating frame the histogram has
exactly the 10 bins 1..10 in order, every bin's count is the (necessarily
non-negative) number of filtered records with exactly that present rating —
zero for a bin with no observations — and the counts sum to the number of
filtered records whose rating is a present numeric value in the range 1..10. -/
theorem C1_histogram_shape (rs : List Record) (w : Option String)
    (hne : rating_df rs w ≠ []) (p : Int × Nat)
    (hp : p ∈ rating_counts (rating_df rs w)) :
    (rating_counts (rating_df rs w)).length = 10 ∧
    (rating_counts (rating_df rs w)).map Prod.fst
      = (List.range 10).map (fun (i : Nat) => (i : Int) + 1) ∧
    0 ≤ p.2 ∧
    p.2 = countRating (rating_df rs w) p.1 ∧
    ((rating_counts (rating_df rs w)).map Prod.snd).sum
      = ((rating_df rs w).filter inBins).length := by
  refine ⟨by simp [rating_counts], ?_, Nat.zero_le _, ?_, histogram_sum _⟩
  · simp [rating_counts, List.map_map, Function.comp]
  · rcases List.mem_map.mp hp with ⟨i, _, rfl⟩
    rfl

/-- Witness for C1 on a frame with a single rating 7 for wine "W", at the
histogram entry for bin 7. -/
theorem C1_histogram_shape_witness :
    (rating_counts (rating_df [(⟨"A", "W", some 7, "Rating", ""⟩ : Record)]
      (some "W"))).length = 10 ∧
    (rating_counts (rating_df [(⟨"A", "W", some 7, "Rating", ""⟩ : Record)]
      (some "W"))).map Prod.fst = (List.range 10).map (fun (i : Nat) => (i : Int) + 1) ∧
    0 ≤ (((7 : Int), (1 : Nat))).2 ∧
    (((7 : Int), (1 : Nat))).2 = countRating
      (rating_df [(⟨"A", "W", some 7, "Rating", ""⟩ : Record)] (some "W"))
      (((7 : Int), (1 : Nat))).1 ∧
    ((rating_counts (rating_df [(⟨"A", "W", some 7, "Rating", ""⟩ : Record)]
      (some "W"))).map Prod.snd).sum =
      ((rating_df [(⟨"A", "W", some 7, "Rating", ""⟩ : Record)] (some "W")).filter
        inBins).length :=
  C1_histogram_shape [(⟨"A", "W", some 7, "Rating", ""⟩ : Record)] (some "W")
    (by decide) ((7 : Int), (1 : Nat)) (by decide)

/-- C2: for a non-empty filtered taste frame, the frequency table counts exact
taste strings — every entry's count is the number of filtered records carrying
exactly that string (case- and whitespace-sensitive) and is never zero — the
counts sum to the number of filtered Taste-category records, and the entries
are ordered by descending count. -/
theorem C2_taste_frequency (rs : List Record) (w : Option String)
    (hne : taste_df rs w ≠ []) (p : String × Nat)
    (hp : p ∈ taste_counts (taste_df rs w)) :
    ((taste_counts (taste_df rs w)).map Prod.snd).sum = (taste_df rs w).length ∧
    p.2 = ((taste_df rs w).map (fun r => r.taste)).count p.1 ∧
    p.2 ≠ 0 ∧
    List.Sorted countGE (taste_counts (taste_df rs w)) := by
  have hperm : List.Perm (taste_counts (taste_df rs w))
      (((taste_df rs w).map (fun r => r.taste)).dedup.map
        (fun t => (t, ((taste_df rs w).map (fun r => r.taste)).count t))) :=
    List.perm_insertionSort countGE _
  refine ⟨?_, ?_, ?_, List.sorted_insertionSort countGE _⟩
  · rw [(hperm.map Prod.snd).sum_eq, List.map_map]
    have hc : (Prod.snd ∘ fun t => (t, ((taste_df rs w).map (fun r => r.taste)).count t))
        = fun t => ((taste_df rs w).map (fun r => r.taste)).count t := rfl
    rw [hc, List.sum_map_count_dedup_eq_length, List.length_map]
  · rcases List.mem_map.mp (hperm.mem_iff.mp hp) with ⟨t, ht, rfl⟩
    rfl
  · rcases List.mem_map.mp (hperm.mem_iff.mp hp) with ⟨t, ht, rfl⟩
    exact (List.count_pos_iff.mpr (List.mem_dedup.mp ht)).ne'

/-- Witness for C2 on a frame with two "Citrus" notes and one "Apple" note for
wine "W", at the entry for "Citrus". -/
theorem C2_taste_frequency_witness :
    ((taste_counts (taste_df [(⟨"A", "W", none, "Taste", "Citrus"⟩ : Record),
      ⟨"B", "W", none, "Taste", "Citrus"⟩, ⟨"C", "W", none, "Taste", "Apple"⟩]
      (some "W"))).map Prod.snd).sum =
      (taste_df [(⟨"A", "W", none, "Taste", "Citrus"⟩ : Record),
        ⟨"B", "W", none, "Taste", "Citrus"⟩, ⟨"C", "W", none, "Taste", "Apple"⟩]
        (some "W")).length ∧
    (("Citrus", (2 : Nat))).2 = ((taste_df [(⟨"A", "W", none, "Taste", "Citrus"⟩ : Record),
      ⟨"B", "W", none, "Taste", "Citrus"⟩, ⟨"C", "W", none, "Taste", "Apple"⟩]
      (some "W")).map (fun r => r.taste)).count (("Citrus", (2 : Nat))).1 ∧
    (("Citrus", (2 : Nat))).2 ≠ 0 ∧
    List.Sorted countGE (taste_counts (taste_df [(⟨"A", "W", none, "Taste", "Citrus"⟩ : Record),
      ⟨"B", "W", none, "Taste", "Citrus"⟩, ⟨"C", "W", none, "Taste", "Apple"⟩]
      (some "W"))) :=
  C2_taste_frequency [(⟨"A", "W", none, "Taste", "Citrus"⟩ : Record),
    ⟨"B", "W", none, "Taste", "Citrus"⟩, ⟨"C", "W", none, "Taste", "Apple"⟩]
    (some "W") (by decide) ("Citrus", (2 : Nat)) (by decide)

end WineApp
